import Mathlib

/-!
Verification of the `ib_sync` synchronous-bridge layer.

This file gives a shallow embedding, in Lean 4, of the parts of
`src/ib_sync/ib_sync.py` that the verified properties talk about:

* the `Contract` security descriptor and its identity hash,
* the futures-ticker parser and the SID codec
  (`sid_for_contract` / `contract_for_sid`),
* the correlation registry (`Results` / `Request`) and the callback
  delivery paths (`execDetails`, `historicalData`, `contractDetails`,
  `headTimestamp`, `openOrder`, `error`),
* contract qualification (`qualify_contract`),
* the post-wait result translation of `get_historical_data`,
* the polling deadline loop (`Timer.wait` inside `Request.wait`).

Python strings are modelled by Lean `String`, but every string operation
used here (`upper`, `replace`, `split`, substring test) is re-implemented
over `List Char` so that all proofs reduce inside the kernel.  Python
`int` is `Int` (or `Nat` where the source value is necessarily
non-negative), Python `float` timestamps are `Rat`, raised exceptions are
`Option`/`Except` failures, and in-place mutation of an object is
modelled by returning the object's final state.
-/

namespace IbSync

/-! ## Python string primitives over `List Char` -/

/-- Python `str.upper()` (the source only ever upper-cases ASCII data). -/
def pyUpper (s : String) : String :=
  String.mk (s.toList.map Char.toUpper)

/-- One step list of `str.replace`: fuel-bounded scan replacing every
non-overlapping occurrence of `pat`, left to right.  The fuel is always
sufficient because each step consumes at least one character when `pat`
is non-empty; the source only replaces non-empty patterns. -/
def pyReplaceAux (pat rep : List Char) : Nat → List Char → List Char
  | 0, s => s
  | _ + 1, [] => []
  | fuel + 1, c :: cs =>
    if pat.isPrefixOf (c :: cs) then
      rep ++ pyReplaceAux pat rep fuel ((c :: cs).drop pat.length)
    else
      c :: pyReplaceAux pat rep fuel cs

/-- Python `s.replace(pat, rep)`. -/
def pyReplace (s pat rep : String) : String :=
  if pat = "" then s
  else String.mk (pyReplaceAux pat.toList rep.toList s.toList.length s.toList)

/-- Fuel-bounded worker for `str.split(sep)` with a non-empty separator. -/
def pySplitAux (sep : List Char) : Nat → List Char → List Char → List (List Char)
  | 0, acc, s => [acc.reverse ++ s]
  | _ + 1, acc, [] => [acc.reverse]
  | fuel + 1, acc, c :: cs =>
    if sep.isPrefixOf (c :: cs) then
      acc.reverse :: pySplitAux sep fuel [] ((c :: cs).drop sep.length)
    else
      pySplitAux sep fuel (c :: acc) cs

/-- Python `s.split(sep)` for a non-empty separator: keeps empty parts,
so the part count is one more than the number of occurrences of `sep`. -/
def pySplit (s sep : String) : List String :=
  if sep = "" then [s]
  else (pySplitAux sep.toList (s.toList.length + 1) [] s.toList).map String.mk

/-- Python `needle in haystack` for a non-empty needle. -/
def pyContains (needle haystack : String) : Bool :=
  1 < (pySplit haystack needle).length

/-- Worker for whitespace `str.split()`: splits on runs of whitespace and
drops empty parts, exactly like the no-argument Python `split`. -/
def pySplitWsAux : List Char → List Char → List (List Char)
  | acc, [] => if acc.isEmpty then [] else [acc.reverse]
  | acc, c :: cs =>
    if c.isWhitespace then
      if acc.isEmpty then pySplitWsAux [] cs else acc.reverse :: pySplitWsAux [] cs
    else
      pySplitWsAux (c :: acc) cs

/-- Python `s.split()` (no separator argument). -/
def pySplitWs (s : String) : List String :=
  (pySplitWsAux [] s.toList).map String.mk

/-- Python `s.split()[0]`: `none` models the `IndexError` raised when the
string has no non-whitespace token. -/
def pyFirstToken (s : String) : Option String :=
  (pySplitWs s).head?

/-- Python `s[-n:]` (for `n > 0`): the last `n` characters, or the whole
string when it is shorter than `n`. -/
def takeRightStr (s : String) (n : Nat) : String :=
  String.mk (s.toList.drop (s.toList.length - n))

/-- Zero-padded two-digit decimal rendering, as in `strftime` fields. -/
def pad2 (n : Nat) : String :=
  if n < 10 then "0" ++ toString n else toString n

/-- `strftime("%y%m")`: two-digit year (mod 100) followed by two-digit
month. -/
def yymm (y m : Nat) : String :=
  pad2 (y % 100) ++ pad2 m

/-! ## The `Contract` security descriptor (dataclass, lines 47-99)

All fields of the Python dataclass are kept (except the always-`None`
combo-leg/delta-neutral slots).  The float field `strike` is modelled by
`Rat`; no verified property computes with it.  The dynamically-attached
`details` back-reference is threaded separately through
`qualify_contract` below, because the wire-level records never carry
one. -/

structure Contract where
  secType : String := ""
  conId : Int := 0
  symbol : String := ""
  lastTradeDateOrContractMonth : String := ""
  strike : Rat := 0
  right : String := ""
  multiplier : String := ""
  exchange : String := ""
  primaryExchange : String := ""
  currency : String := ""
  localSymbol : String := ""
  tradingClass : String := ""
  includeExpired : Bool := false
  secIdType : String := ""
  secId : String := ""
  description : String := ""
  issuerId : String := ""
  comboLegsDescrip : String := ""
deriving DecidableEq, Repr

/-- The composite key string hashed by `Contract.__hash__` when `conId`
is zero (source lines 82-85). -/
def Contract.hashStrKey (c : Contract) : String :=
  c.secType ++ "-" ++ toString c.conId ++ "-" ++ c.symbol ++ "-" ++
    c.lastTradeDateOrContractMonth ++ "-" ++ c.exchange ++ "-" ++
    c.primaryExchange ++ "-" ++ c.currency ++ "-" ++ c.localSymbol

/-- `Contract.__hash__` (source lines 77-88).  Python's string hash is
process-randomized, so the string-branch hash is an explicit parameter
`strHash`; the claims about this function only exercise the `conId`
branch, which is deterministic. -/
def Contract.hash (strHash : String → Int) (c : Contract) : Int :=
  if c.conId ≠ 0 then
    if c.secType ≠ "CONTFUT" then c.conId else -c.conId
  else
    strHash c.hashStrKey

/-! ## C5: continuous-future hash inversion -/

/-- **C5** (confirmed).  For every pair of descriptors sharing the same
non-zero numeric id where one carries the `CONTFUT` asset-class tag and
the other does not (in particular for two descriptors identical in every
other field), the identity hash of the continuous-future descriptor is
the arithmetic negation of the hash of the concrete-contract
descriptor. -/
theorem contfut_hash_is_negation (strHash : String → Int) (c1 c2 : Contract)
    (hid : c1.conId = c2.conId) (hnz : c2.conId ≠ 0)
    (h1 : c1.secType = "CONTFUT") (h2 : c2.secType ≠ "CONTFUT") :
    Contract.hash strHash c1 = -(Contract.hash strHash c2) := by
  unfold Contract.hash
  rw [hid, h1]
  simp [hnz, h2]

/-- Witness for C5 at a concrete pair: the continuous corn future and its
front-month contract, both with broker id 10. -/
theorem contfut_hash_is_negation_witness :
    ({ secType := "CONTFUT", conId := 10, symbol := "ZC" } : Contract).conId =
      ({ secType := "FUT", conId := 10, symbol := "ZC" } : Contract).conId ∧
    ({ secType := "FUT", conId := 10, symbol := "ZC" } : Contract).conId ≠ 0 ∧
    Contract.hash (fun _ => 0) { secType := "CONTFUT", conId := 10, symbol := "ZC" } =
      -(Contract.hash (fun _ => 0) { secType := "FUT", conId := 10, symbol := "ZC" }) := by
  refine ⟨by decide, by decide, ?_⟩
  exact contfut_hash_is_negation (fun _ => 0) _ _ (by decide) (by decide) (by decide)
    (by decide)

/-! ## Futures ticker parsing and the SID codec (lines 128-142, 265-359) -/

/-- The CME month-code alphabet (source line 131). -/
def monthCodes : List Char := "FGHJKMNQUVXZ".toList

/-- `parse_futures_ticker` (source lines 128-142).  The Python function
returns `(symbol, date(year, month, 10))`; only the year and month of
that date are ever consumed (via `strftime("%y%m")`), so the embedding
returns `(symbol, year, month)`.  The Python `decade` default of `None`
is conflated with `0` by the source's own truthiness test `if decade:`,
so it is a plain `Nat` here.  `none` models any exception escaping the
function (`IndexError` on a too-short symbol, `ValueError` from `int()`
or `str.index`); the caller wraps the call in a bare `except`. -/
def parse_futures_ticker (localSymbol : String) (decade : Nat) :
    Option (String × Nat × Nat) :=
  match localSymbol.toList.reverse with
  | yc :: mc :: rest =>
    if yc.isDigit then
      let y0 := yc.toNat - 48
      let year :=
        if decade ≠ 0 then y0 + decade
        else if y0 ≤ 6 then y0 + 2020 else y0 + 2010
      match monthCodes.findIdx? (fun c => c = mc) with
      | some i => some (String.mk rest.reverse, year, i + 1)
      | none => none
    else none
  | _ => none

/-- A run of decimal digits as a number; `none` when empty or not all
digits (a `strptime` parse failure). -/
def digitsToNat (cs : List Char) : Option Nat :=
  if cs ≠ [] ∧ cs.all Char.isDigit then
    some (cs.foldl (fun n c => n * 10 + (c.toNat - 48)) 0)
  else none

def isLeapYear (y : Nat) : Bool :=
  (y % 4 = 0 && y % 100 ≠ 0) || y % 400 = 0

def daysInMonth (y m : Nat) : Nat :=
  if m = 2 then (if isLeapYear y then 29 else 28)
  else if m = 4 ∨ m = 6 ∨ m = 9 ∨ m = 11 then 30
  else 31

/-- `datetime.strptime(s, "%Y%m%d").date()`: `none` models the
`ValueError` raised on a malformed or invalid date. -/
def strptimeYmd (s : String) : Option (Nat × Nat × Nat) :=
  let cs := s.toList
  if cs.length = 8 then do
    let y ← digitsToNat (cs.take 4)
    let m ← digitsToNat ((cs.drop 4).take 2)
    let d ← digitsToNat (cs.drop 6)
    if 1 ≤ y ∧ 1 ≤ m ∧ m ≤ 12 ∧ 1 ≤ d ∧ d ≤ daysInMonth y m then
      some (y, m, d)
    else none
  else none

/-- `datetime.strptime(s, "%Y%m").date()`. -/
def strptimeYm (s : String) : Option (Nat × Nat) :=
  let cs := s.toList
  if cs.length = 6 then do
    let y ← digitsToNat (cs.take 4)
    let m ← digitsToNat (cs.drop 4)
    if 1 ≤ y ∧ 1 ≤ m ∧ m ≤ 12 then some (y, m) else none
  else none

/-- Year/month of `exp_dt + timedelta(days=10)` for a valid date with
`day > 22`: the day is then at least 23, so day `+ 10` is at least 33,
which exceeds every month length; the sum lands in the following month
(and at most 13 days into it), so only the month rolls over. -/
def nextYm (y m : Nat) : Nat × Nat :=
  if m = 12 then (y + 1, 1) else (y, m + 1)

/-- `IBSync.sid_for_contract` (source lines 265-304).  `none` models the
uncaught `ValueError` that `strptime` raises inside the `except` block
on a malformed expiry string. -/
def sid_for_contract (contract : Contract) : Option String :=
  let exchange0 :=
    if contract.primaryExchange ≠ "" then contract.primaryExchange
    else contract.exchange
  let exchange := pyReplace exchange0 "ISLAND" "NASDAQ"
  let symbol := contract.symbol
  let sid : Option String :=
    if contract.secType = "STK" then some (exchange ++ "_" ++ symbol)
    else if contract.secType = "FUT" then
      let expStr : Option String :=
        match parse_futures_ticker contract.localSymbol 0 with
        | some (_, y, m) => some (yymm y m)
        | none =>
          let es := contract.lastTradeDateOrContractMonth
          if es.toList.length = 8 then
            (strptimeYmd es).map (fun t =>
              if t.2.2 > 22 then
                let p := nextYm t.1 t.2.1
                yymm p.1 p.2
              else yymm t.1 t.2.1)
          else if es.toList.length = 6 then
            (strptimeYm es).map (fun t => yymm t.1 t.2)
          else some (takeRightStr es 4)
      expStr.map (fun e => exchange ++ "_" ++ symbol ++ "_" ++ e)
    else if contract.secType = "CRYPTO" then some (exchange ++ "_" ++ symbol)
    else if contract.secType = "CASH" then
      some (exchange ++ "_" ++ contract.localSymbol)
    else some (exchange ++ "_" ++ symbol)
  sid.map pyUpper

/-- `IBSync.contract_for_sid` (source lines 306-359).  `none` models any
raised exception: a tuple-unpacking `ValueError` when a `split` does not
produce the expected number of parts, and the explicit
`Exception("Can't make a contract from SID: ...")` when the decoded
symbol is empty. -/
def contract_for_sid (sid0 : String) : Option Contract :=
  let sid := pyUpper sid0
  let c : Option Contract :=
    if pyContains "IDEALPRO_" sid ∨ pyContains "." sid then
      match pySplit sid "_" with
      | [exch, sec] =>
        match pySplit sec "." with
        | [cur1, cur2] =>
          some { secType := "CASH", symbol := cur1, exchange := exch,
                 primaryExchange := exch, currency := cur2 }
        | _ => none
      | _ => none
    else if pyContains "PAXOS_" sid then
      match pySplit sid "_" with
      | [exch, sec] =>
        some { secType := "CRYPTO", symbol := sec, exchange := exch,
               primaryExchange := exch, currency := "USD" }
      | _ => none
    else if (pySplit sid "_").length = 2 then
      match pySplit sid "_" with
      | [exch0, sec] =>
        let exch := pyReplace exch0 "NASDAQ" "ISLAND"
        some { secType := "STK", symbol := sec, exchange := "SMART",
               primaryExchange := exch, currency := "USD" }
      | _ => none
    else if (pySplit sid "_").length = 3 then
      match pySplit sid "_" with
      | [exch, sec, expStr] =>
        some { secType := "FUT", symbol := sec, exchange := exch,
               primaryExchange := exch, currency := "USD",
               lastTradeDateOrContractMonth := "20" ++ expStr }
      | _ => none
    else some {}
  match c with
  | some c => if c.symbol ≠ "" then some c else none
  | none => none

/-! ## C9: concrete future encoding -/

/-- **C9** (confirmed).  Encoding the future descriptor with exchange
"CBOT", symbol "ZC" and local symbol "ZCH4" yields exactly
"CBOT_ZC_2403": the ticker parser maps month code H to month 3 and
expands the trailing year digit 4 to 2024 by the decade heuristic. -/
theorem sid_for_zc_future :
    sid_for_contract
        { secType := "FUT", symbol := "ZC", exchange := "CBOT",
          localSymbol := "ZCH4" } = some "CBOT_ZC_2403" ∧
    parse_futures_ticker "ZCH4" 0 = some ("ZC", 2024, 3) := by
  constructor
  · rfl
  · rfl

/-! ## C6: per-asset-class SID round trips -/

/-- The fields C6 asserts survive the round trip. -/
def sidKey (c : Contract) : String × String × String :=
  (c.secType, c.symbol, c.exchange)

/-- Representative equity descriptor. -/
def dStk : Contract :=
  { secType := "STK", symbol := "URA", exchange := "SMART",
    primaryExchange := "ARCA", currency := "USD" }

/-- Representative future descriptor. -/
def dFut : Contract :=
  { secType := "FUT", symbol := "ZC", exchange := "CBOT",
    localSymbol := "ZCH4", currency := "USD" }

/-- Representative currency-pair descriptor. -/
def dCash : Contract :=
  { secType := "CASH", symbol := "EUR", exchange := "IDEALPRO",
    localSymbol := "EUR.USD", currency := "USD" }

/-- Representative crypto descriptor. -/
def dCrypto : Contract :=
  { secType := "CRYPTO", symbol := "BTC", exchange := "PAXOS",
    currency := "USD" }

/-- **C6** (confirmed).  For each asset class there is a representative
descriptor whose encoded SID decodes back to a descriptor with the same
asset-class tag, symbol and exchange. -/
theorem sid_roundtrip_per_asset_class :
    ((sid_for_contract dStk).bind contract_for_sid).map sidKey
        = some (sidKey dStk) ∧
    ((sid_for_contract dFut).bind contract_for_sid).map sidKey
        = some (sidKey dFut) ∧
    ((sid_for_contract dCash).bind contract_for_sid).map sidKey
        = some (sidKey dCash) ∧
    ((sid_for_contract dCrypto).bind contract_for_sid).map sidKey
        = some (sidKey dCrypto) := by
  refine ⟨?_, ?_, ?_, ?_⟩ <;> rfl

/-! ## Correlation registry: `Request` and `Results` (lines 157-244)

A Python `Request` is a `list` subclass with extra attributes; here the
list contents live in the `items` field.  The registry dict
`requests_by_id` is an insertion-ordered association list with unique
keys, as Python dicts are.  Python aliasing — `results.get(id)` returns
the stored object, so mutating it mutates the registry entry, while the
placeholder returned for an absent id is detached and mutations to it
are lost — is embedded by the per-path registry transformers below:
present id ⇒ the entry is rewritten in place, absent id ⇒ the registry
is unchanged. -/

structure Request (α : Type) where
  id : Int := 0
  type : String := ""
  startedAt : Rat := 0
  finished : Bool := false
  code : Int := 0
  error : String := ""
  items : List α := []
deriving DecidableEq, Repr

/-- `list.append` on the request's buffer. -/
def Request.append {α : Type} (r : Request α) (x : α) : Request α :=
  { r with items := r.items ++ [x] }

/-- `Request.finish` (source lines 243-244). -/
def Request.finish {α : Type} (r : Request α) : Request α :=
  { r with finished := true }

structure Results (α : Type) where
  requestsById : List (Int × Request α) := []
deriving DecidableEq, Repr

/-- First binding for a key, like `dict.get` on a unique-key dict. -/
def lookupReq {α : Type} : List (Int × Request α) → Int → Option (Request α)
  | [], _ => none
  | p :: ps, i => if p.1 = i then some p.2 else lookupReq ps i

/-- Rewrite the first binding for a key in place; identity when the key
is absent.  This is the registry-level effect of mutating the aliased
object returned by `results.get`. -/
def modifyEntry {α : Type} :
    List (Int × Request α) → Int → (Request α → Request α) → List (Int × Request α)
  | [], _, _ => []
  | p :: ps, i, f =>
    if p.1 = i then (p.1, f p.2) :: ps else p :: modifyEntry ps i f

def Results.modify {α : Type} (rs : Results α) (i : Int)
    (f : Request α → Request α) : Results α :=
  ⟨modifyEntry rs.requestsById i f⟩

/-- `Results.get` (source lines 182-183): the stored entry, or a fresh
placeholder `Request()` — id 0, empty type, unfinished, empty buffer,
created at the current time `now` — when the id is absent. -/
def Results.get {α : Type} (rs : Results α) (i : Int) (now : Rat) : Request α :=
  (lookupReq rs.requestsById i).getD
    { id := 0, type := "", startedAt := now, finished := false, code := 0,
      error := "", items := [] }

def Results.contains {α : Type} (rs : Results α) (i : Int) : Bool :=
  (lookupReq rs.requestsById i).isSome

/-- Keys of `Results.active(type)` (source lines 179-180) in registry
order; Python returns the aliased `Request` objects, and each stored
object's key is the id it was registered under. -/
def Results.activeIds {α : Type} (rs : Results α) (t : String) : List Int :=
  (rs.requestsById.filter
      (fun p => !p.2.finished && p.2.type == t)).map (fun p => p.1)

/-! ### Callback delivery paths -/

/-- `IBSync.execDetails` (source lines 689-693): append only while the
entry is unfinished. -/
def execDetails {α : Type} (rs : Results α) (reqId : Int) (item : α) : Results α :=
  rs.modify reqId (fun r => if r.finished then r else r.append item)

/-- `IBSync.historicalData` (source lines 857-861): same guarded append. -/
def historicalData {α : Type} (rs : Results α) (reqId : Int) (item : α) : Results α :=
  rs.modify reqId (fun r => if r.finished then r else r.append item)

/-- Buffer effect of `IBSync.contractDetails` (source lines 739-749):
guarded append (a finished entry is only logged).  The function's other
effect — inserting the record into the `_cached_details` hash map — is
modelled by the `details` argument of `qualify_contract` below. -/
def contractDetails {α : Type} (rs : Results α) (reqId : Int) (item : α) : Results α :=
  rs.modify reqId (fun r => if r.finished then r else r.append item)

/-- `IBSync.headTimestamp` (source lines 877-881): guarded append, then
finish, both under the same unfinished test. -/
def headTimestamp {α : Type} (rs : Results α) (reqId : Int) (item : α) : Results α :=
  rs.modify reqId (fun r => if r.finished then r else (r.append item).finish)

/-- `IBSync.openOrder` (source lines 640-654), buffer effect only (the
`_orders_by_pid` side table is not part of any verified property).  The
entry found by id is appended to unconditionally — there is no
`finished` guard on this path.  When `get` returned the detached
placeholder (`request.id == 0`), the item is routed to the most recent
active "open_orders" entry, and is lost if there is none. -/
def openOrder {α : Type} (rs : Results α) (orderId : Int) (item : α)
    (now : Rat) : Results α :=
  let request := rs.get orderId now
  if request.id ≠ 0 then
    rs.modify orderId (fun r => r.append item)
  else
    match (rs.activeIds "open_orders").getLast? with
    | some k => rs.modify k (fun r => r.append item)
    | none =>
      if rs.contains orderId then rs.modify orderId (fun r => r.append item)
      else rs

/-- The informational gateway codes suppressed by `IBSync.error`
(source line 385). -/
def infoCodes : List Int := [2104, 2106, 2107, 2119, 2158, 2100]

/-- `IBSync.error` (source lines 378-402): informational codes are only
logged; any other code sets the entry's code and message and finishes
it.  (The `502` message rewrite happens after the entry is mutated and
only affects the log line.) -/
def error {α : Type} (rs : Results α) (reqId errorCode : Int)
    (errorString : String) : Results α :=
  if errorCode ∈ infoCodes then rs
  else
    rs.modify reqId
      (fun r => Request.finish { r with code := errorCode, error := errorString })

/-! ### Registry lemmas -/

theorem lookupReq_modifyEntry {α : Type} (l : List (Int × Request α)) (i : Int)
    (f : Request α → Request α) :
    lookupReq (modifyEntry l i f) i = (lookupReq l i).map f := by
  induction l with
  | nil => rfl
  | cons p ps ih =>
    by_cases h : p.1 = i
    · simp [modifyEntry, lookupReq, h]
    · simp [modifyEntry, lookupReq, h, ih]

theorem modifyEntry_of_lookup_none {α : Type} (l : List (Int × Request α))
    (i : Int) (f : Request α → Request α) (h : lookupReq l i = none) :
    modifyEntry l i f = l := by
  induction l with
  | nil => rfl
  | cons p ps ih =>
    by_cases hp : p.1 = i
    · simp [lookupReq, hp] at h
    · simp [lookupReq, hp] at h
      simp [modifyEntry, hp, ih h]

theorem modifyEntry_of_fix {α : Type} (l : List (Int × Request α)) (i : Int)
    (f : Request α → Request α) (r : Request α)
    (hl : lookupReq l i = some r) (hf : f r = r) :
    modifyEntry l i f = l := by
  induction l with
  | nil => simp [lookupReq] at hl
  | cons p ps ih =>
    obtain ⟨k, q⟩ := p
    by_cases hp : k = i
    · have hq : q = r := by simpa [lookupReq, hp] using hl
      subst hq
      simp [modifyEntry, hp, hf]
    · have hl2 : lookupReq ps i = some r := by simpa [lookupReq, hp] using hl
      simp [modifyEntry, hp, ih hl2]

theorem Results.modify_eta {α : Type} (rs : Results α) (i : Int)
    (f : Request α → Request α) (h : modifyEntry rs.requestsById i f = rs.requestsById) :
    rs.modify i f = rs := by
  cases rs
  simp [Results.modify] at h ⊢
  exact h

/-! ## C1: append after finish -/

/-- A registry with one finished `place_order` entry under id 5, as left
behind by an error callback for that order id. -/
def c1Results : Results Nat :=
  ⟨[(5, { id := 5, type := "place_order", startedAt := 0, finished := true,
          code := 0, error := "", items := [] })]⟩

/-- **C1 counterexample**.  The claim — a late item delivered for a
finished entry's id never changes the buffer returned by `get(id)`, on
every callback delivery path including the order callbacks — is false:
the `openOrder` path appends to the finished entry found by id, growing
its buffer from 0 to 1 items. -/
theorem openOrder_appends_after_finish :
    ¬ (((openOrder c1Results 5 99 1).get 5 1).items.length
        = ((c1Results.get 5 1).items).length
       ∧ ((openOrder c1Results 5 99 1).get 5 1).items
        = (c1Results.get 5 1).items) := by
  decide

/-- **C1 amended** (the registry part of the claim that does hold).  For
a finished registered entry, a late item delivered through the guarded
by-id paths — `execDetails`, `historicalData`, `contractDetails`,
`headTimestamp` — is silently dropped and the whole registry (hence the
buffer returned by `get(id)`) is unchanged; the `openOrder` path,
however, appends the late item to the finished entry found by id. -/
theorem late_items_dropped_except_openOrder {α : Type} (rs : Results α)
    (i : Int) (x : α) (now : Rat)
    (hfin : (rs.get i now).finished = true)
    (hid : (rs.get i now).id ≠ 0) :
    execDetails rs i x = rs ∧
    historicalData rs i x = rs ∧
    contractDetails rs i x = rs ∧
    headTimestamp rs i x = rs ∧
    ((openOrder rs i x now).get i now).items = (rs.get i now).items ++ [x] := by
  match hl : lookupReq rs.requestsById i with
  | none =>
    rw [Results.get, hl] at hfin
    simp at hfin
  | some r =>
    rw [Results.get, hl] at hfin hid
    simp at hfin hid
    refine ⟨?_, ?_, ?_, ?_, ?_⟩
    · exact Results.modify_eta rs i _
        (modifyEntry_of_fix _ _ _ r hl (by simp [hfin]))
    · exact Results.modify_eta rs i _
        (modifyEntry_of_fix _ _ _ r hl (by simp [hfin]))
    · exact Results.modify_eta rs i _
        (modifyEntry_of_fix _ _ _ r hl (by simp [hfin]))
    · exact Results.modify_eta rs i _
        (modifyEntry_of_fix _ _ _ r hl (by simp [hfin]))
    · rw [openOrder]
      have hget : rs.get i now = r := by rw [Results.get, hl]; rfl
      rw [hget]
      simp only [hid, ne_eq, not_false_iff, if_pos]
      rw [Results.get, Results.modify, lookupReq_modifyEntry, hl]
      rfl

/-- Witness for the amended C1 at the concrete registry `c1Results`. -/
theorem late_items_dropped_except_openOrder_witness :
    (c1Results.get 5 1).finished = true ∧
    (c1Results.get 5 1).id ≠ 0 ∧
    (execDetails c1Results 5 42 = c1Results ∧
     historicalData c1Results 5 42 = c1Results ∧
     contractDetails c1Results 5 42 = c1Results ∧
     headTimestamp c1Results 5 42 = c1Results ∧
     ((openOrder c1Results 5 42 1).get 5 1).items
        = (c1Results.get 5 1).items ++ [42]) := by
  refine ⟨by decide, by decide, ?_⟩
  exact late_items_dropped_except_openOrder c1Results 5 42 1 (by decide) (by decide)

/-! ## C4: the error callback -/

/-- **C4** (confirmed).  An error callback whose code is outside the
informational set writes the code and message onto the registry entry
for its correlation id and always also finishes it; a callback with an
informational (connectivity-status) code is only logged and leaves the
whole registry untouched. -/
theorem error_callback_routes {α : Type} (rs : Results α) (i code : Int)
    (msg : String) (now : Rat) :
    (code ∉ infoCodes → rs.contains i = true →
        (error rs i code msg).get i now =
          { rs.get i now with code := code, error := msg, finished := true }) ∧
    (code ∈ infoCodes → error rs i code msg = rs) := by
  constructor
  · intro hc hcont
    match hl : lookupReq rs.requestsById i with
    | none => rw [Results.contains, hl] at hcont; simp at hcont
    | some r =>
      rw [error, if_neg hc, Results.get, Results.modify,
        lookupReq_modifyEntry, hl, Results.get, hl]
      rfl
  · intro hc
    rw [error, if_pos hc]

/-- A registry with one open entry under id 7, for the C4 witness. -/
def c4Results : Results Nat :=
  ⟨[(7, { id := 7, type := "historical_data", startedAt := 0, finished := false,
          code := 0, error := "", items := [] })]⟩

/-- Witness for C4: a real error code (200) finishes entry 7 and records
the message, while informational code 2104 leaves the registry as is. -/
theorem error_callback_routes_witness :
    ((200 : Int) ∉ infoCodes ∧ c4Results.contains 7 = true ∧
      (error c4Results 7 200 "No security definition").get 7 0 =
        { c4Results.get 7 0 with
            code := 200
            error := "No security definition"
            finished := true }) ∧
    ((2104 : Int) ∈ infoCodes ∧ error c4Results 7 2104 "Market data farm connection is OK" = c4Results) := by
  refine ⟨⟨by decide, by decide, ?_⟩, ⟨by decide, ?_⟩⟩
  · exact (error_callback_routes c4Results 7 200 "No security definition" 0).1
      (by decide) (by decide)
  · exact (error_callback_routes c4Results 7 2104
      "Market data farm connection is OK" 0).2 (by decide)

/-! ## C10: `get` on an absent id -/

/-- **C10** (confirmed).  For an id absent from the registry, `get`
returns a fresh empty unfinished placeholder (correlation id 0, empty
request type) and the registry mapping is unchanged.  The placeholder is
detached, so mutating it — here, any registry-level effect `f` of a
mutation applied through the absent id, and each concrete callback
delivery path — leaves the registry unchanged, and a later `get(id)`
still returns a fresh placeholder. -/
theorem get_absent_placeholder {α : Type} (rs : Results α) (i : Int) (x : α)
    (code : Int) (msg : String) (now now2 : Rat) (f : Request α → Request α)
    (h : lookupReq rs.requestsById i = none) :
    rs.get i now =
      { id := 0, type := "", startedAt := now, finished := false, code := 0,
        error := "", items := [] } ∧
    rs.modify i f = rs ∧
    execDetails rs i x = rs ∧
    historicalData rs i x = rs ∧
    contractDetails rs i x = rs ∧
    headTimestamp rs i x = rs ∧
    error rs i code msg = rs ∧
    (rs.activeIds "open_orders" = [] → openOrder rs i x now = rs) ∧
    (rs.modify i f).get i now2 =
      { id := 0, type := "", startedAt := now2, finished := false, code := 0,
        error := "", items := [] } := by
  have hmod : ∀ g : Request α → Request α, rs.modify i g = rs := fun g =>
    Results.modify_eta rs i g (modifyEntry_of_lookup_none _ _ _ h)
  have hget : ∀ t : Rat, rs.get i t =
      { id := 0, type := "", startedAt := t, finished := false, code := 0,
        error := "", items := [] } := by
    intro t; rw [Results.get, h]; rfl
  refine ⟨hget now, hmod f, hmod _, hmod _, hmod _, hmod _, ?_, ?_, ?_⟩
  · rw [error]
    by_cases hc : code ∈ infoCodes
    · rw [if_pos hc]
    · rw [if_neg hc]; exact hmod _
  · intro hact
    have hcont : rs.contains i = false := by rw [Results.contains, h]; rfl
    simp [openOrder, hget now, hact, hcont]
  · rw [hmod f]; exact hget now2

/-- A registry without any entry under id 3, for the C10 witness. -/
def c10Results : Results Nat :=
  ⟨[(7, { id := 7, type := "positions", startedAt := 0, finished := false,
          code := 0, error := "", items := [] })]⟩

/-- Witness for C10 at the concrete registry `c10Results` and absent
id 3. -/
theorem get_absent_placeholder_witness :
    lookupReq c10Results.requestsById 3 = none ∧
    (c10Results.get 3 2 =
      { id := 0, type := "", startedAt := 2, finished := false, code := 0,
        error := "", items := [] } ∧
    c10Results.modify 3 (fun r => r.finish) = c10Results ∧
    execDetails c10Results 3 42 = c10Results ∧
    historicalData c10Results 3 42 = c10Results ∧
    contractDetails c10Results 3 42 = c10Results ∧
    headTimestamp c10Results 3 42 = c10Results ∧
    error c10Results 3 200 "boom" = c10Results ∧
    (c10Results.activeIds "open_orders" = [] →
        openOrder c10Results 3 42 2 = c10Results) ∧
    (c10Results.modify 3 (fun r => r.finish)).get 3 6 =
      { id := 0, type := "", startedAt := 6, finished := false, code := 0,
        error := "", items := [] }) := by
  refine ⟨by decide, ?_⟩
  exact get_absent_placeholder c10Results 3 42 200 "boom" 2 6
    (fun r => r.finish) (by decide)

/-! ## Contract qualification (lines 755-806)

`ContractDetails` records arrive from the gateway and carry a plain
contract plus many market-data fields the bridge never reads; only the
embedded contract is modelled.  `_get_cached_details` (lines 755-769)
operates on a *copy* of the caller's contract (`Contract(conId=...)` or
`Contract(**contract.__dict__)`), so the lookup itself never mutates the
caller's descriptor; the lookup's result set is therefore a parameter
`details` of the embedded `qualify_contract`.  The dynamically attached
`details` attribute of the Python contract is the `Option ContractDetails`
component threaded in and out. -/

structure ContractDetails where
  contract : Contract
deriving DecidableEq, Repr

inductive QualifyError
  /-- `ValueError("Unknown contract: ...")`, carrying the (unmutated)
  input descriptor. -/
  | unknown (c : Contract)
  /-- `ValueError("Ambiguous contract: ..., variants: ...")`, carrying
  the (unmutated) input descriptor and the candidate numeric ids. -/
  | ambiguous (c : Contract) (variants : List Int)
  /-- `IndexError` from `expiry.split()[0]` when the canonical expiry is
  non-empty but all whitespace. -/
  | indexError
deriving DecidableEq, Repr

/-- The expiry normalisation of lines 790-793: a non-empty expiry is
replaced by its first whitespace-separated token ("remove time and
timezone part"); an empty expiry is left alone. -/
def normalizeExpiry (s : String) : Option String :=
  if s = "" then some s else pyFirstToken s

/-- `IBSync.qualify_contract` (source lines 771-806).  In-place mutation
of the caller's descriptor is modelled by returning its final state
together with its `details` attribute; on the failure paths nothing has
been written to the descriptor, which the error constructors record by
carrying the untouched input.  (The source also mutates the *cached*
canonical record when normalising the expiry and when `keep_exchange`
is set; no verified property reads the cache afterwards.) -/
def qualify_contract (contract : Contract) (priorDetails : Option ContractDetails)
    (details : List ContractDetails) (keep_exchange : Bool) :
    Except QualifyError (Contract × Option ContractDetails) :=
  if priorDetails.isSome then Except.ok (contract, priorDetails)
  else
    match details with
    | [] => Except.error (QualifyError.unknown contract)
    | [d] =>
      match normalizeExpiry d.contract.lastTradeDateOrContractMonth with
      | none => Except.error QualifyError.indexError
      | some e =>
        let c1 := { d.contract with lastTradeDateOrContractMonth := e }
        let c2 := if keep_exchange then { c1 with exchange := contract.exchange }
                  else c1
        Except.ok (c2, some d)
    | ds => Except.error
        (QualifyError.ambiguous contract (ds.map (fun d => d.contract.conId)))

/-! ## C2: qualification against a single canonical record -/

/-- **C2** (confirmed).  For a not-yet-resolved descriptor whose details
lookup yields exactly one canonical record, `qualify_contract` mutates
the descriptor in place into a field-for-field copy of the canonical
record — so every blank field receives the canonical value, and a
non-blank caller-supplied field survives only in the exchange position
and only when `keep_exchange` is set — with the expiry string normalised
to its first whitespace token, and marks the descriptor resolved by
attaching the record; the mutated descriptor itself is what the call
returns. -/
theorem qualify_single_record (contract : Contract) (d : ContractDetails)
    (kx : Bool) (e : String)
    (he : normalizeExpiry d.contract.lastTradeDateOrContractMonth = some e) :
    qualify_contract contract none [d] kx =
      Except.ok
        ({ d.contract with
            lastTradeDateOrContractMonth := e
            exchange := if kx then contract.exchange else d.contract.exchange },
         some d) := by
  rw [qualify_contract]
  simp only [Option.isSome_none, Bool.false_eq_true, if_false]
  rw [he]
  cases kx
  · rfl
  · rfl

/-- Witness for C2: a blank-ish caller descriptor for corn futures
qualified against one canonical record whose expiry carries a time
suffix, with `keep_exchange` set. -/
theorem qualify_single_record_witness :
    normalizeExpiry "20240314 23:59:59 US/Central" = some "20240314" ∧
    qualify_contract { symbol := "ZC", exchange := "SMART" } none
        [⟨{ secType := "FUT", conId := 555, symbol := "ZC",
            lastTradeDateOrContractMonth := "20240314 23:59:59 US/Central",
            exchange := "CBOT", currency := "USD", localSymbol := "ZCH4" }⟩]
        true =
      Except.ok
        ({ secType := "FUT", conId := 555, symbol := "ZC",
           lastTradeDateOrContractMonth := "20240314",
           exchange := "SMART", currency := "USD", localSymbol := "ZCH4" },
         some ⟨{ secType := "FUT", conId := 555, symbol := "ZC",
                 lastTradeDateOrContractMonth := "20240314 23:59:59 US/Central",
                 exchange := "CBOT", currency := "USD",
                 localSymbol := "ZCH4" }⟩) := by
  constructor
  · rfl
  · exact qualify_single_record { symbol := "ZC", exchange := "SMART" }
      ⟨{ secType := "FUT", conId := 555, symbol := "ZC",
         lastTradeDateOrContractMonth := "20240314 23:59:59 US/Central",
         exchange := "CBOT", currency := "USD", localSymbol := "ZCH4" }⟩
      true "20240314" (by rfl)

/-! ## C3: ambiguous qualification -/

/-- **C3** (confirmed).  For a not-yet-resolved descriptor whose details
lookup yields two or more candidate records, `qualify_contract` fails
with the ambiguous-instrument error naming the candidates' numeric ids,
and the input descriptor is completely unchanged: the raise happens
before any field is written, which the embedding exhibits by the error
carrying the input descriptor exactly as given. -/
theorem qualify_ambiguous_unchanged (contract : Contract) (d1 d2 : ContractDetails)
    (ds : List ContractDetails) (kx : Bool) :
    qualify_contract contract none (d1 :: d2 :: ds) kx =
      Except.error
        (QualifyError.ambiguous contract
          ((d1 :: d2 :: ds).map (fun d => d.contract.conId))) := by
  rfl

/-! ## C7: historical-data result translation -/

/-- Result translation of `IBSync.get_historical_data` after its wait
completes (source lines 849-855): a set error either maps the specific
"query returned no data" gateway message to a successful empty list or
is raised; otherwise the buffered bars are returned. -/
def get_historical_data_result {α : Type} (req : Request α) :
    Except String (List α) :=
  if req.error ≠ "" then
    if pyContains "query returned no data" req.error then Except.ok []
    else Except.error req.error
  else Except.ok req.items

/-- **C7** (confirmed).  A historical-data request that finishes with a
gateway error containing "query returned no data" yields a successful
empty list; one that finishes with any other non-empty error raises a
failure carrying exactly that message; one that finishes without error
yields its buffered bar records. -/
theorem historical_data_outcome {α : Type} (req : Request α)
    (hfin : req.finished = true) :
    (pyContains "query returned no data" req.error = true →
        get_historical_data_result req = Except.ok []) ∧
    (req.error ≠ "" → pyContains "query returned no data" req.error = false →
        get_historical_data_result req = Except.error req.error) ∧
    (req.error = "" → get_historical_data_result req = Except.ok req.items) := by
  refine ⟨?_, ?_, ?_⟩
  · intro hsub
    have herr : req.error ≠ "" := by
      intro h0
      rw [h0] at hsub
      exact absurd hsub (by decide)
    rw [get_historical_data_result, if_pos herr, if_pos hsub]
  · intro herr hsub
    rw [get_historical_data_result, if_pos herr, if_neg (by simp [hsub])]
  · intro herr
    rw [get_historical_data_result, if_neg (by simp [herr])]

/-- Requests for the C7 witness: a "no data" error, a real error, and a
clean finish with two bars. -/
def hReqNoData : Request Nat :=
  { id := 1, type := "historical_data", startedAt := 0, finished := true,
    code := 162,
    error := "Historical Market Data Service error message:HMDS query returned no data",
    items := [] }

def hReqFailed : Request Nat :=
  { id := 2, type := "historical_data", startedAt := 0, finished := true,
    code := 200, error := "No security definition has been found",
    items := [] }

def hReqOk : Request Nat :=
  { id := 3, type := "historical_data", startedAt := 0, finished := true,
    code := 0, error := "", items := [10, 20] }

/-- Witness for C7 on all three finished-request shapes. -/
theorem historical_data_outcome_witness :
    (hReqNoData.finished = true ∧
      pyContains "query returned no data" hReqNoData.error = true ∧
      get_historical_data_result hReqNoData = Except.ok []) ∧
    (hReqFailed.finished = true ∧ hReqFailed.error ≠ "" ∧
      pyContains "query returned no data" hReqFailed.error = false ∧
      get_historical_data_result hReqFailed =
        Except.error "No security definition has been found") ∧
    (hReqOk.finished = true ∧ hReqOk.error = "" ∧
      get_historical_data_result hReqOk = Except.ok [10, 20]) := by
  refine ⟨⟨by decide, by decide, ?_⟩, ⟨by decide, by decide, by decide, ?_⟩,
    ⟨by decide, by decide, ?_⟩⟩
  · exact (historical_data_outcome hReqNoData (by decide)).1 (by decide)
  · exact (historical_data_outcome hReqFailed (by decide)).2.1 (by decide) (by decide)
  · exact (historical_data_outcome hReqOk (by decide)).2.2 (by decide)

/-! ## C8: the polling wait times out instead of hanging

`Request.wait` (lines 238-241) loops `while not self.finished: t.wait()`
inside a `Timer` scope; `Timer.wait` (lines 121-125) sleeps for the poll
interval — a cooperative, non-blocking yield — and then raises
`TimeoutError` when the monotonic clock has advanced past the deadline.
The monotonic clock is modelled as a sequence `clock : Nat → Rat` of the
times at which the successive checks run: `clock 0` is `start_time`
(taken in `Timer.__enter__`), and the check of iteration `i` happens at
`clock (i+1)`, after the `i`-th sleep.  That each sleep actually
suspends for at least the poll interval is the hypothesis
`clock n + delay ≤ clock (n+1)`. -/

/-- The poll loop of `Request.wait` for an entry that is never finished:
`some k` means `TimeoutError` is raised at the `k`-th check, `none`
means the loop was still running when the fuel ran out. -/
def waitPolls (clock : Nat → Rat) (timeout : Rat) : Nat → Nat → Option Nat
  | _, 0 => none
  | i, fuel + 1 =>
    if clock (i + 1) - clock 0 > timeout then some (i + 1)
    else waitPolls clock timeout (i + 1) fuel

theorem waitPolls_reaches {clock : Nat → Rat} {timeout : Rat} :
    ∀ (fuel i : Nat), timeout < clock (i + fuel) - clock 0 → 1 ≤ fuel →
      ∃ k, waitPolls clock timeout i fuel = some k := by
  intro fuel
  induction fuel with
  | zero => intro i _ h1; omega
  | succ f ih =>
    intro i hcl _
    rw [waitPolls]
    by_cases hc : clock (i + 1) - clock 0 > timeout
    · exact ⟨i + 1, by rw [if_pos hc]⟩
    · match f, ih with
      | 0, _ =>
        rw [show i + (0 + 1) = i + 1 by omega] at hcl
        exact absurd hcl hc
      | f' + 1, ih =>
        rw [if_neg hc]
        exact ih (i + 1) (by rw [show i + 1 + (f' + 1) = i + (f' + 1 + 1) by omega]; exact hcl)
          (by omega)

theorem clock_lower_bound {clock : Nat → Rat} {delay : Rat}
    (hc : ∀ n, clock n + delay ≤ clock (n + 1)) :
    ∀ n : Nat, clock 0 + n * delay ≤ clock n := by
  intro n
  induction n with
  | zero => simp
  | succ m ih =>
    have h1 := hc m
    push_cast
    push_cast at ih
    linarith

/-- **C8** (confirmed).  A waiter polling an entry that is never
finished, with deadline `timeout` and a positive poll interval `delay`
(each check preceded by a cooperative sleep of at least `delay`),
raises `TimeoutError` at some finite check rather than looping
forever: with enough fuel the loop returns `some k`. -/
theorem wait_raises_timeout (clock : Nat → Rat) (timeout delay : Rat)
    (hd : 0 < delay) (hc : ∀ n, clock n + delay ≤ clock (n + 1)) :
    ∃ fuel k, waitPolls clock timeout 0 fuel = some k := by
  obtain ⟨N, hN⟩ := exists_nat_gt (timeout / delay)
  have hNd : timeout < N * delay := by
    rw [div_lt_iff₀ hd] at hN
    linarith
  have hlow := clock_lower_bound hc (N + 1)
  have hcl : timeout < clock (0 + (N + 1)) - clock 0 := by
    rw [Nat.zero_add]
    push_cast at hlow
    nlinarith
  obtain ⟨k, hk⟩ := waitPolls_reaches (N + 1) 0 hcl (by omega)
  exact ⟨N + 1, k, hk⟩

/-- Witness for C8: the identity clock with the default 5-second timeout
and a 1-second poll interval. -/
theorem wait_raises_timeout_witness :
    (0 : Rat) < 1 ∧
    (∀ n : Nat, (fun m : Nat => (m : Rat)) n + 1 ≤ (fun m : Nat => (m : Rat)) (n + 1)) ∧
    ∃ fuel k, waitPolls (fun m : Nat => (m : Rat)) 5 0 fuel = some k := by
  refine ⟨by norm_num, fun n => by push_cast; linarith, ?_⟩
  exact wait_raises_timeout (fun m : Nat => (m : Rat)) 5 1 (by norm_num)
    (fun n => by push_cast; linarith)

end IbSync
